import Mathlib

/-!
Verification of the Scan & Pick backend (`src/index.js`).

The program is a stateless HTTP proxy in front of a GraphQL API.  We embed
its pure request/response logic shallowly:

* JS strings become `String`, JS numbers become `ℚ` (`none : Option ℚ`
  models `NaN` where it matters), nullable JSON fields become `Option`.
* Each Express handler becomes a total function from its parsed inputs and
  the upstream transport outcome to the HTTP response it writes; the
  `try`/`catch` wrapping is modelled by `Except` propagation inside the
  function, so totality of the Lean function models "no exception escapes".
* The upstream call helper `shopifyGraphQL` is modelled on the outcome of
  the POST: either a transport failure, or a body with an optional
  top-level error list and a data payload.
-/

namespace PickBackend

/-- Character-list test that `p` occurs at the start of `l`; used to model
JS `String.prototype.startsWith`. -/
def charsStart : List Char → List Char → Bool
  | [], _ => true
  | _ :: _, [] => false
  | c :: p, d :: l => c == d && charsStart p l

/-- Models the JS expression `s.startsWith(p)`. -/
def jsStartsWith (s p : String) : Bool :=
  charsStart p.data s.data

/-- `toGid` (src/index.js lines 20-24): normalize a raw identifier to the
fully-qualified global-id form.  The source first does `String(idOrGid)`;
we model string inputs directly. -/
def toGid (type s : String) : String :=
  if jsStartsWith s "gid://" then s
  else "gid://shopify/" ++ type ++ "/" ++ s

/-- `buildDraftQuery` (src/index.js lines 55-63).  `since`/`untl` model the
`since`/`until` query parameters: `none` when absent, `some s` when present
with value `s`.  The JS guards `if (since)` / `if (until)` are truthiness
tests, under which the empty string counts as false. -/
def buildDraftQuery (since untl : Option String) : String :=
  let parts : List String :=
    (match since with
      | some s => if s != "" then ["created_at:>=" ++ s] else []
      | none => []) ++
    (match untl with
      | some u => if u != "" then ["created_at:<=" ++ u] else []
      | none => []) ++
    ["status:open"]
  String.intercalate " " parts

/-- The `first` query parameter of `/api/pick/drafts` as the handler sees
it: absent, present but not parsing to a number (`Number(s)` is `NaN`), or
present and parsing to the number `v`. -/
inductive FirstParam
  | absent
  | nonNumeric
  | numeric (v : ℚ)

/-- The value of the JS expression `Number(first)`, with `none` modelling
`NaN` (`Number(undefined)` is `NaN`, as is `Number` of a non-numeric
string). -/
def jsNumberOf : FirstParam → Option ℚ
  | .absent => none
  | .nonNumeric => none
  | .numeric v => some v

/-- The JS expression `Math.min(Number(first) || 25, 250)`
(src/index.js line 140): `NaN` and `0` are falsy, so `|| 25` replaces them
with the default before the upper clamp. -/
def draftsFirstVar (first : FirstParam) : ℚ :=
  min
    (match jsNumberOf first with
      | none => 25
      | some v => if v = 0 then 25 else v)
    250

/-- The GraphQL variables the drafts handler sends upstream
(src/index.js lines 139-142). -/
structure ListDraftsVars where
  first : ℚ
  query : String
deriving DecidableEq

/-- Variable construction for the `ListDrafts` operation. -/
def listDraftsVars (since untl : Option String) (first : FirstParam) :
    ListDraftsVars :=
  { first := draftsFirstVar first, query := buildDraftQuery since untl }

/-! ### Upstream call helper -/

/-- A successfully transported GraphQL response body: an optional top-level
`errors` array (modelled as a list of error strings) and the `data`
payload. -/
structure GraphQLBody (α : Type) where
  errors : Option (List String)
  data : α
deriving DecidableEq

/-- Outcome of the POST to the upstream endpoint: either a body came back,
or the transport failed (network error, non-2xx, timeout). -/
inductive TransportResult (α : Type)
  | ok (body : GraphQLBody α)
  | fail
deriving DecidableEq

/-- The two ways `shopifyGraphQL` throws. -/
inductive UpstreamFailure
  | transport
  | graphqlErrors
deriving DecidableEq

/-- `shopifyGraphQL` (src/index.js lines 26-52): rethrows transport
failures, throws on any present top-level `errors` field (the JS truthiness
test `if (res.data.errors)` holds for every array, even an empty one), and
otherwise returns the `data` payload unchanged. -/
def shopifyGraphQL {α : Type} : TransportResult α → Except UpstreamFailure α
  | .fail => .error .transport
  | .ok b =>
    match b.errors with
    | some _ => .error .graphqlErrors
    | none => .ok b.data

/-- An HTTP response as written by a handler: status code and body. -/
structure HttpResponse (β : Type) where
  status : ℕ
  body : β
deriving DecidableEq

/-! ### Upstream payload shapes for `ListDrafts` -/

/-- Shipping address fields selected by the queries. -/
structure Address where
  address1 : Option String
  city : Option String
  province : Option String
  country : Option String
  zip : Option String
deriving DecidableEq

/-- A sampled line-item node of the `ListDrafts` query: just `quantity`
(`none` models a missing/null field). -/
structure QtyNode where
  quantity : Option ℤ
deriving DecidableEq

/-- A line-item edge of the `ListDrafts` query; `node` may be null. -/
structure QtyEdge where
  node : Option QtyNode
deriving DecidableEq

/-- The `lineItems(first: 1)` connection of a listed draft order. -/
structure LineItemsSample where
  edges : Option (List (Option QtyEdge))
deriving DecidableEq

/-- A draft-order node of the `ListDrafts` query. -/
structure DraftNode where
  id : String
  createdAt : String
  updatedAt : String
  email : Option String
  shippingAddress : Option Address
  lineItems : Option LineItemsSample
deriving DecidableEq

/-- An order edge of the `ListDrafts` query. -/
structure DraftEdge where
  node : DraftNode
deriving DecidableEq

/-- The `draftOrders` connection. -/
structure DraftOrdersConn where
  edges : Option (List DraftEdge)
deriving DecidableEq

/-- The `data` payload of the `ListDrafts` query. -/
structure DraftsData where
  draftOrders : Option DraftOrdersConn
deriving DecidableEq

/-- The reduce body `(e?.node?.quantity || 0)` (src/index.js line 149). -/
def edgeQty : Option QtyEdge → ℤ
  | none => 0
  | some e =>
    match e.node with
    | none => 0
    | some n =>
      match n.quantity with
      | none => 0
      | some q => if q = 0 then 0 else q

/-- `node.lineItems?.edges?.reduce((n, e) => n + (e?.node?.quantity || 0), 0) || 0`
(src/index.js line 149). -/
def totalLinesHint (n : DraftNode) : ℤ :=
  match (n.lineItems.bind fun li => li.edges).map
      (fun es => es.foldl (fun acc e => acc + edgeQty e) 0) with
  | none => 0
  | some v => if v = 0 then 0 else v

/-- The client-facing draft summary (one element of `items`). -/
structure DraftSummary where
  id : String
  createdAt : String
  email : Option String
  shipping : Option Address
  totalLinesHint : ℤ
deriving DecidableEq

/-- The per-edge mapping of src/index.js lines 144-150. -/
def summarizeDraft (n : DraftNode) : DraftSummary :=
  { id := n.id
    createdAt := n.createdAt
    email := n.email
    shipping := n.shippingAddress
    totalLinesHint := totalLinesHint n }

/-- `(data?.draftOrders?.edges || [])` (src/index.js line 144). -/
def draftEdgesOf (data : Option DraftsData) : List DraftEdge :=
  ((data.bind fun d => d.draftOrders).bind fun c => c.edges).getD []

/-- The `items` array of the drafts response (src/index.js lines 144-150). -/
def mapDraftItems (data : Option DraftsData) : List DraftSummary :=
  (draftEdgesOf data).map fun e => summarizeDraft e.node

/-- Body of a `/api/pick/drafts` response. -/
inductive DraftsBody
  | items (items : List DraftSummary)
  | failure (error : String)
deriving DecidableEq

/-- Observable outcome of the drafts handler: the GraphQL variables it sent
upstream and the HTTP response it wrote. -/
structure ListDraftsOutcome where
  sentVars : ListDraftsVars
  response : HttpResponse DraftsBody
deriving DecidableEq

/-- Handler for `GET /api/pick/drafts` (src/index.js lines 135-156).  The
`catch` converts any upstream throw into a 500 with a fixed body. -/
def listDraftsHandler (since untl : Option String) (first : FirstParam)
    (upstream : TransportResult (Option DraftsData)) : ListDraftsOutcome :=
  { sentVars := listDraftsVars since untl first
    response :=
      match shopifyGraphQL upstream with
      | .error _ => ⟨500, .failure "failed to list drafts"⟩
      | .ok d => ⟨200, .items (mapDraftItems d)⟩ }

/-! ### Upstream payload shapes for `DraftForPick` -/

/-- `image { originalSrc }`. -/
structure Image where
  originalSrc : String
deriving DecidableEq

/-- `product { title }`. -/
structure Product where
  title : String
deriving DecidableEq

/-- A variant node of the `DraftForPick` query; nested objects may be
null. -/
structure Variant where
  id : String
  sku : Option String
  barcode : Option String
  title : String
  image : Option Image
  product : Option Product
deriving DecidableEq

/-- A line-item node of the `DraftForPick` query. -/
structure PickLineNode where
  id : String
  quantity : ℤ
  variant : Option Variant
deriving DecidableEq

/-- A line-item edge of the `DraftForPick` query. -/
structure PickEdge where
  node : PickLineNode
deriving DecidableEq

/-- The `lineItems(first: 250)` connection of the fetched draft. -/
structure PickLineItems where
  edges : Option (List PickEdge)
deriving DecidableEq

/-- The fetched draft order. -/
structure DraftOrderDetail where
  id : String
  lineItems : Option PickLineItems
  shippingAddress : Option Address
deriving DecidableEq

/-- The `data` payload of the `DraftForPick` query; `draftOrder` is null
when no draft matches the id. -/
structure JobsData where
  draftOrder : Option DraftOrderDetail
deriving DecidableEq

/-- One client-facing pick line. -/
structure PickLine where
  lineItemId : String
  variantId : Option String
  title : String
  sku : Option String
  barcode : Option String
  qty : ℤ
  thumb : Option String
deriving DecidableEq

/-- The per-line mapping of src/index.js lines 166-174. -/
def mapPickLine (n : PickLineNode) : PickLine :=
  { lineItemId := n.id
    variantId := n.variant.map fun v => v.id
    title := ((n.variant.bind fun v => v.product).map fun p => p.title).getD "Unknown"
    sku := n.variant.bind fun v => v.sku
    barcode := n.variant.bind fun v => v.barcode
    qty := n.quantity
    thumb := (n.variant.bind fun v => v.image).map fun i => i.originalSrc }

/-- The client-facing pick job. -/
structure PickJob where
  draftId : String
  shippingAddress : Option Address
  lines : List PickLine
deriving DecidableEq

/-- Body of a `/api/pick/jobs/:draftId` response. -/
inductive JobsBody
  | job (j : PickJob)
  | failure (error : String)
deriving DecidableEq

/-- Observable outcome of the jobs handler: the normalized id sent upstream
and the HTTP response. -/
structure JobsOutcome where
  sentId : String
  response : HttpResponse JobsBody
deriving DecidableEq

/-- Handler for `GET /api/pick/jobs/:draftId` (src/index.js lines
159-184). -/
def jobsHandler (draftIdParam : String)
    (upstream : TransportResult (Option JobsData)) : JobsOutcome :=
  { sentId := toGid "DraftOrder" draftIdParam
    response :=
      match shopifyGraphQL upstream with
      | .error _ => ⟨500, .failure "Failed to fetch draft"⟩
      | .ok dataOpt =>
        match dataOpt.bind fun d => d.draftOrder with
        | none => ⟨404, .failure "Draft not found"⟩
        | some d =>
          ⟨200, .job
            { draftId := d.id
              shippingAddress := d.shippingAddress
              lines := ((d.lineItems.bind fun li => li.edges).getD []).map
                fun e => mapPickLine e.node }⟩ }

/-! ### Upstream payload shapes for `CompleteDraft` -/

/-- One upstream field-level validation error. -/
structure UserError where
  field : Option (List String)
  message : String
deriving DecidableEq

/-- `order { id name }` of the completion payload. -/
structure OrderRef where
  id : String
  name : String
deriving DecidableEq

/-- The `draftOrderComplete` payload. -/
structure CompletePayload where
  order : Option OrderRef
  userErrors : Option (List UserError)
deriving DecidableEq

/-- The `data` payload of the `CompleteDraft` mutation. -/
structure CompleteData where
  draftOrderComplete : Option CompletePayload
deriving DecidableEq

/-- Parsed JSON body of `POST /api/pick/complete`: `draftId` absent or
present, `paymentPending` absent (destructuring default `true` applies) or
present. -/
structure CompleteReqBody where
  draftId : Option String
  paymentPending : Option Bool
deriving DecidableEq

/-- Body of a `/api/pick/complete` response. -/
inductive CompleteBody
  | order (o : Option OrderRef)
  | errors (errors : List UserError)
  | failure (error : String)
deriving DecidableEq

/-- Observable outcome of the completion handler: the HTTP response,
whether an upstream call was made, and if so the normalized id and
`paymentPending` variables sent. -/
structure CompleteOutcome where
  response : HttpResponse CompleteBody
  upstreamCalled : Bool
  sentId : Option String
  sentPaymentPending : Option Bool
deriving DecidableEq

/-- Handler for `POST /api/pick/complete` (src/index.js lines 187-203).
The guard `if (!draftId)` is a JS truthiness test, false for a missing
field and for the empty string; `if (out?.userErrors?.length)` is truthy
exactly when a nonempty `userErrors` array is present. -/
def completeHandler (body : CompleteReqBody)
    (upstream : TransportResult (Option CompleteData)) : CompleteOutcome :=
  match body.draftId with
  | none => ⟨⟨400, .failure "draftId required"⟩, false, none, none⟩
  | some s =>
    if s == "" then ⟨⟨400, .failure "draftId required"⟩, false, none, none⟩
    else
      let gid := toGid "DraftOrder" s
      let pp := body.paymentPending.getD true
      match shopifyGraphQL upstream with
      | .error _ =>
        ⟨⟨500, .failure "Failed to complete draft"⟩, true, some gid, some pp⟩
      | .ok dataOpt =>
        match dataOpt.bind fun d => d.draftOrderComplete with
        | some p =>
          match p.userErrors with
          | some es =>
            if es.length != 0 then ⟨⟨400, .errors es⟩, true, some gid, some pp⟩
            else ⟨⟨200, .order p.order⟩, true, some gid, some pp⟩
          | none => ⟨⟨200, .order p.order⟩, true, some gid, some pp⟩
        | none => ⟨⟨200, .order none⟩, true, some gid, some pp⟩

/-! ## Helper lemmas -/

/-- A character list occurs at the start of itself followed by anything. -/
theorem charsStart_append (p t : List Char) : charsStart p (p ++ t) = true := by
  induction p with
  | nil => rfl
  | cons c cs ih => simp [charsStart, ih]

/-- String append concatenates the underlying character lists. -/
theorem strData_append (s t : String) : (s ++ t).data = s.data ++ t.data := by
  cases s; cases t; rfl

/-- Every string produced by the wrapping branch of `toGid` passes the
`startsWith("gid://")` test. -/
theorem wrapped_startsWith (t s : String) :
    jsStartsWith ("gid://shopify/" ++ t ++ "/" ++ s) "gid://" = true := by
  have hsplit : ("gid://shopify/" ++ t ++ "/" ++ s).data
      = ("gid://").data ++ (("shopify/").data ++ t.data ++ ("/").data ++ s.data) := by
    simp [strData_append]
  rw [jsStartsWith, hsplit]
  exact charsStart_append _ _

/-- A left fold accumulating `f` of each element is the sum of the mapped
list. -/
theorem foldl_add_eq_sum {α : Type} (f : α → ℤ) (es : List α) (init : ℤ) :
    es.foldl (fun acc e => acc + f e) init = init + (es.map f).sum := by
  induction es generalizing init with
  | nil => simp
  | cons e es ih => simp [List.foldl_cons, ih, add_assoc]

/-- The `|| 0` guard after the reduce is the identity on integers. -/
theorem ifZeroElse_self (v : ℤ) : (if v = 0 then 0 else v) = v := by
  by_cases h : v = 0 <;> simp [h]

/-- The computed hint is the sum of the per-edge quantities (each degenerate
edge contributing 0). -/
theorem totalLinesHint_eq_sum (n : DraftNode) :
    totalLinesHint n
      = (((n.lineItems.bind fun li => li.edges).getD []).map edgeQty).sum := by
  rcases h : n.lineItems.bind fun li => li.edges with _ | es
  · simp [totalLinesHint, h]
  · simp [totalLinesHint, h, foldl_add_eq_sum, ifZeroElse_self]

/-! ## Claims -/

/-- C1, counterexample to the claim as stated: with `since` supplied as the
empty string (`?since=`) and `until` absent, the built filter is just
`status:open` — it contains no `created_at:>=` term even though `since` was
supplied, because the JS guard `if (since)` is a truthiness test and the
empty string is falsy. -/
theorem buildDraftQuery_claim_cex :
    buildDraftQuery (some "") none = "status:open" ∧
    buildDraftQuery (some "") none ≠ "created_at:>= status:open" := by
  constructor
  · rfl
  · decide

/-- C1 (amended): for every combination of the `since`/`until` parameters —
absent, supplied empty, or supplied nonempty — the built filter is exactly
the space-joined concatenation of the `created_at:>=` term when `since` is
supplied with a nonempty value, the `created_at:<=` term when `until` is
supplied with a nonempty value, and the always-present `status:open` term,
in that order; an empty supplied value is treated as absent. -/
theorem buildDraftQuery_spec (since untl : Option String) :
    buildDraftQuery since untl =
      String.intercalate " "
        ((match since with
          | some s => if s = "" then [] else ["created_at:>=" ++ s]
          | none => []) ++
         (match untl with
          | some u => if u = "" then [] else ["created_at:<=" ++ u]
          | none => []) ++
         ["status:open"]) := by
  cases since with
  | none =>
    cases untl with
    | none => rfl
    | some u => by_cases hu : u = "" <;> simp [buildDraftQuery, hu]
  | some s =>
    cases untl with
    | none => by_cases hs : s = "" <;> simp [buildDraftQuery, hs]
    | some u =>
      by_cases hs : s = "" <;> by_cases hu : u = "" <;>
        simp [buildDraftQuery, hs, hu]

/-- Witness for C1: a nonempty `since` paired with an empty-supplied
`until`, which contributes no term. -/
theorem buildDraftQuery_spec_witness :
    buildDraftQuery (some "2024-01-01") (some "") =
      "created_at:>=2024-01-01 status:open" := by
  rw [buildDraftQuery_spec (some "2024-01-01") (some "")]
  rfl

/-- C2: an identifier already starting with the global-id `gid://` marker is
returned unchanged by `toGid`; any other identifier is wrapped exactly once
as `gid://shopify/<type>/<raw>`. -/
theorem toGid_spec (t s : String) :
    (jsStartsWith s "gid://" = true → toGid t s = s) ∧
    (jsStartsWith s "gid://" = false →
      toGid t s = "gid://shopify/" ++ t ++ "/" ++ s) := by
  constructor <;> intro h <;> simp [toGid, h]

/-- Witness for C2: one fully-qualified input and one bare input. -/
theorem toGid_spec_witness :
    toGid "DraftOrder" "gid://shopify/DraftOrder/123"
        = "gid://shopify/DraftOrder/123" ∧
    toGid "DraftOrder" "123" = "gid://shopify/DraftOrder/123" :=
  ⟨(toGid_spec "DraftOrder" "gid://shopify/DraftOrder/123").1 (by decide),
   (toGid_spec "DraftOrder" "123").2 (by decide)⟩

/-- C9: `toGid` is idempotent, the fully-qualified test looks only at the
`gid://` marker, and in particular a value wrapped with one type tag is
returned unchanged when normalized with a different tag. -/
theorem toGid_alg :
    (∀ t s, toGid t (toGid t s) = toGid t s) ∧
    (∀ t s, jsStartsWith s "gid://" = true → toGid t s = s) ∧
    (∀ t t' s, toGid t' ("gid://shopify/" ++ t ++ "/" ++ s)
      = "gid://shopify/" ++ t ++ "/" ++ s) := by
  have hfix : ∀ t t' s, toGid t' ("gid://shopify/" ++ t ++ "/" ++ s)
      = "gid://shopify/" ++ t ++ "/" ++ s := by
    intro t t' s
    simp [toGid, wrapped_startsWith]
  refine ⟨?_, ?_, hfix⟩
  · intro t s
    by_cases h : jsStartsWith s "gid://" = true
    · simp [toGid, h]
    · have h' : jsStartsWith s "gid://" = false := by
        cases hb : jsStartsWith s "gid://" <;> simp_all
      rw [(toGid_spec t s).2 h']
      exact hfix t t s
  · intro t s h
    simp [toGid, h]

/-- Witness for C9: idempotence on a bare id, and a gid wrapped with type
`Order` left unchanged when normalized with type `Product`. -/
theorem toGid_alg_witness :
    toGid "Product" (toGid "Product" "7") = toGid "Product" "7" ∧
    toGid "Product" "gid://shopify/Order/9" = "gid://shopify/Order/9" :=
  ⟨toGid_alg.1 "Product" "7",
   toGid_alg.2.1 "Product" "gid://shopify/Order/9" (by decide)⟩

/-- C3: the `first` variable sent upstream by the drafts handler is 25 when
the query parameter is absent, 250 when the supplied value parses to a
number above 250, and 25 when the supplied value does not parse to a
number. -/
theorem listDrafts_first_clamp (since untl : Option String)
    (upstream : TransportResult (Option DraftsData)) :
    (listDraftsHandler since untl .absent upstream).sentVars.first = 25 ∧
    (∀ v : ℚ, 250 < v →
      (listDraftsHandler since untl (.numeric v) upstream).sentVars.first = 250) ∧
    (listDraftsHandler since untl .nonNumeric upstream).sentVars.first = 25 := by
  refine ⟨?_, ?_, ?_⟩
  · show min (25 : ℚ) 250 = 25
    norm_num
  · intro v hv
    have hne : v ≠ 0 := by positivity
    show min (if v = 0 then 25 else v) 250 = 250
    rw [if_neg hne]
    exact min_eq_right (le_of_lt hv)
  · show min (25 : ℚ) 250 = 25
    norm_num

/-- Witness for C3: a supplied value of 300 is clamped to 250. -/
theorem listDrafts_first_clamp_witness :
    (listDraftsHandler none none (.numeric 300) .fail).sentVars.first = 250 :=
  (listDrafts_first_clamp none none .fail).2.1 300 (by norm_num)

/-- C10: the clamp is an upper bound only — a supplied value parsing to 0 is
falsy under `|| 25` and falls back to the default 25, while a negative
parsed value is sent upstream unchanged. -/
theorem listDrafts_first_no_lower_bound (since untl : Option String)
    (upstream : TransportResult (Option DraftsData)) :
    (listDraftsHandler since untl (.numeric 0) upstream).sentVars.first = 25 ∧
    (∀ v : ℚ, v < 0 →
      (listDraftsHandler since untl (.numeric v) upstream).sentVars.first = v) := by
  constructor
  · show min (if (0 : ℚ) = 0 then 25 else 0) 250 = 25
    norm_num
  · intro v hv
    have hne : v ≠ 0 := ne_of_lt hv
    show min (if v = 0 then 25 else v) 250 = v
    rw [if_neg hne]
    exact min_eq_left (by linarith)

/-- Witness for C10: a supplied value of -5 goes upstream as -5. -/
theorem listDrafts_first_no_lower_bound_witness :
    (listDraftsHandler none none (.numeric (-5)) .fail).sentVars.first = -5 :=
  (listDrafts_first_no_lower_bound none none .fail).2 (-5) (by norm_num)

/-- C4: on an upstream success the drafts handler answers 200 with one
summary per order edge, in edge order, each carrying the edge's fields and
a `totalLinesHint` equal to the sum of the quantities of the line-item
edges returned for that order (an empty or missing edge list sums to 0);
moreover the item count equals the edge count. -/
theorem listDrafts_reshape (since untl : Option String) (first : FirstParam)
    (d : Option DraftsData) :
    (listDraftsHandler since untl first (.ok ⟨none, d⟩)).response =
      ⟨200, .items ((draftEdgesOf d).map fun e =>
        { id := e.node.id
          createdAt := e.node.createdAt
          email := e.node.email
          shipping := e.node.shippingAddress
          totalLinesHint :=
            (((e.node.lineItems.bind fun li => li.edges).getD []).map
              edgeQty).sum })⟩ ∧
    (mapDraftItems d).length = (draftEdgesOf d).length := by
  have hfun : (fun (e : DraftEdge) => summarizeDraft e.node)
      = (fun (e : DraftEdge) =>
          ({ id := e.node.id
             createdAt := e.node.createdAt
             email := e.node.email
             shipping := e.node.shippingAddress
             totalLinesHint :=
               (((e.node.lineItems.bind fun li => li.edges).getD []).map
                 edgeQty).sum } : DraftSummary)) := by
    funext e
    simp [summarizeDraft, totalLinesHint_eq_sum]
  constructor
  · show (⟨200, .items (mapDraftItems d)⟩ : HttpResponse DraftsBody) = _
    rw [mapDraftItems, hfun]
  · simp [mapDraftItems]

/-- C5: on every upstream failure — transport failure, or a transported body
carrying a top-level `errors` list — each of the three data handlers
answers 500 with its fixed generic body.  The bodies are literal constants,
independent of the quantified error list `es`, so no upstream detail
reaches the caller; totality of the handler functions models that no
exception escapes.  For the completion endpoint the upstream call is only
reached when `draftId` is supplied and nonempty. -/
theorem upstream_failure_500 :
    (∀ (since untl : Option String) (first : FirstParam) (es : List String)
        (d : Option DraftsData),
      (listDraftsHandler since untl first .fail).response
          = ⟨500, .failure "failed to list drafts"⟩ ∧
      (listDraftsHandler since untl first (.ok ⟨some es, d⟩)).response
          = ⟨500, .failure "failed to list drafts"⟩) ∧
    (∀ (id : String) (es : List String) (d : Option JobsData),
      (jobsHandler id .fail).response = ⟨500, .failure "Failed to fetch draft"⟩ ∧
      (jobsHandler id (.ok ⟨some es, d⟩)).response
          = ⟨500, .failure "Failed to fetch draft"⟩) ∧
    (∀ (s : String) (pp : Option Bool) (es : List String)
        (d : Option CompleteData), s ≠ "" →
      (completeHandler ⟨some s, pp⟩ .fail).response
          = ⟨500, .failure "Failed to complete draft"⟩ ∧
      (completeHandler ⟨some s, pp⟩ (.ok ⟨some es, d⟩)).response
          = ⟨500, .failure "Failed to complete draft"⟩) := by
  refine ⟨fun since untl first es d => ⟨rfl, rfl⟩,
    fun id es d => ⟨rfl, rfl⟩, fun s pp es d hs => ?_⟩
  have hs' : (s == "") = false := beq_eq_false_iff_ne.mpr hs
  constructor <;> simp [completeHandler, hs', shopifyGraphQL]

/-- Witness for C5 at concrete failures on all three endpoints. -/
theorem upstream_failure_500_witness :
    (listDraftsHandler none none .absent .fail).response
        = ⟨500, .failure "failed to list drafts"⟩ ∧
    (jobsHandler "1" (.ok ⟨some ["boom"], none⟩)).response
        = ⟨500, .failure "Failed to fetch draft"⟩ ∧
    (completeHandler ⟨some "1", none⟩ .fail).response
        = ⟨500, .failure "Failed to complete draft"⟩ :=
  ⟨(upstream_failure_500.1 none none .absent [] none).1,
   (upstream_failure_500.2.1 "1" ["boom"] none).2,
   (upstream_failure_500.2.2 "1" none [] none (by decide)).1⟩

/-- C6: when the completion mutation succeeds upstream but reports a
nonempty `userErrors` list, the handler answers 400 with exactly that list
as the `errors` body, and the body is not an order payload. -/
theorem complete_userErrors_400 (s : String) (pp : Option Bool)
    (d : Option CompleteData) (p : CompletePayload) (es : List UserError)
    (hs : s ≠ "")
    (hd : (d.bind fun x => x.draftOrderComplete) = some p)
    (hes : p.userErrors = some es) (hne : es ≠ []) :
    (completeHandler ⟨some s, pp⟩ (.ok ⟨none, d⟩)).response = ⟨400, .errors es⟩ ∧
    ∀ o, (completeHandler ⟨some s, pp⟩ (.ok ⟨none, d⟩)).response.body
      ≠ CompleteBody.order o := by
  have hs' : (s == "") = false := beq_eq_false_iff_ne.mpr hs
  have hlen : (es.length != 0) = true := by
    cases es with
    | nil => exact absurd rfl hne
    | cons e es => simp
  have hresp : (completeHandler ⟨some s, pp⟩ (.ok ⟨none, d⟩)).response
      = ⟨400, .errors es⟩ := by
    simp [completeHandler, hs', shopifyGraphQL, hd, hes, hlen]
  refine ⟨hresp, fun o => ?_⟩
  rw [hresp]
  simp

/-- Witness for C6 at a concrete one-element error list. -/
theorem complete_userErrors_400_witness :
    (completeHandler ⟨some "1", none⟩
        (.ok ⟨none, some ⟨some ⟨none, some [⟨none, "oops"⟩]⟩⟩⟩)).response
      = ⟨400, .errors [⟨none, "oops"⟩]⟩ :=
  (complete_userErrors_400 "1" none (some ⟨some ⟨none, some [⟨none, "oops"⟩]⟩⟩)
    ⟨none, some [⟨none, "oops"⟩]⟩ [⟨none, "oops"⟩]
    (by decide) rfl rfl (by decide)).1

/-- C7: when the completion request body has no `draftId` field, the handler
answers 400 with `draftId required` and `upstreamCalled = false` — the
upstream-call helper is never reached. -/
theorem complete_missing_draftId (pp : Option Bool)
    (upstream : TransportResult (Option CompleteData)) :
    completeHandler ⟨none, pp⟩ upstream =
      ⟨⟨400, .failure "draftId required"⟩, false, none, none⟩ := rfl

/-- C8: when the upstream query succeeds but yields no matching draft order
(`draftOrder` null or the data payload itself null), the jobs handler
answers 404 with an error body, and the body carries no pick job (hence no
`PickLine` entries). -/
theorem jobs_notFound_404 (id : String) (d : Option JobsData)
    (hd : (d.bind fun x => x.draftOrder) = none) :
    (jobsHandler id (.ok ⟨none, d⟩)).response = ⟨404, .failure "Draft not found"⟩ ∧
    ∀ j, (jobsHandler id (.ok ⟨none, d⟩)).response.body ≠ JobsBody.job j := by
  have hresp : (jobsHandler id (.ok ⟨none, d⟩)).response
      = ⟨404, .failure "Draft not found"⟩ := by
    simp [jobsHandler, shopifyGraphQL, hd]
  refine ⟨hresp, fun j => ?_⟩
  rw [hresp]
  simp

/-- Witness for C8 at a null data payload. -/
theorem jobs_notFound_404_witness :
    (jobsHandler "1" (.ok ⟨none, none⟩)).response
      = ⟨404, .failure "Draft not found"⟩ :=
  (jobs_notFound_404 "1" none rfl).1

end PickBackend
